import Mathlib

/-
Verification of the dataset validator in `src/utils/validate_data.py`
(`validate_telco_data`).  The dataframe is embedded columnar, as pandas
stores it: an association list from column name to the list of cell
values.  Cell values are strings, numbers (rationals, standing for the
ints and floats of the source) or null (pandas NaN / None).

The source function has two modes selected by the process-wide flag
`GE_AVAILABLE`; following the spec's design note the flag is passed in
explicitly.  Mode B (the pandas fallback) is translated line by line
from the source.  Mode A runs a fixed list of great_expectations
expectations; the library itself is not part of the repository, so the
semantics of each expectation is modelled from the spec (see the doc
comments on the `ge_` definitions).
-/

set_option autoImplicit false

namespace Telco

/-- A cell value of the dataframe: string, number (int or float of the
source, embedded as a rational) or null (NaN / missing). -/
inductive Value where
  | str (s : String)
  | num (q : ℚ)
  | null
  deriving DecidableEq

/-- Columnar dataframe: association list from column name to the list of
cell values of that column, first entry wins on lookup (pandas column
names are unique). -/
abbrev DataFrame := List (String × List Value)

/-- The column labels, in order (pandas `df.columns`). -/
def columnNames (df : DataFrame) : List String := df.map Prod.fst

/-- Read a column (`df[c]`); the empty series if the label is absent. -/
def getCol : DataFrame → String → List Value
  | [], _ => []
  | (k, v) :: t, c => if k = c then v else getCol t c

/-- Overwrite a column in place (`df[c] = series`).  The source only
assigns to columns already present, so absent labels are a no-op. -/
def setCol : DataFrame → String → List Value → DataFrame
  | [], _, _ => []
  | (k, v) :: t, c, vs =>
      if k = c then (k, vs) :: setCol t c vs else (k, v) :: setCol t c vs

/-- pandas `Series.isin(vals)` applied to one cell: only a string equal to
a member matches; numbers and NaN are never in a list of strings. -/
def isinVal (v : Value) (vals : List String) : Bool :=
  match v with
  | .str x => vals.contains x
  | _ => false

/-- Cell comparison `v < q` as pandas evaluates it on a numeric series:
NaN compares false against every bound. -/
def vLt (v : Value) (q : ℚ) : Bool :=
  match v with
  | .num x => decide (x < q)
  | _ => false

/-- Cell comparison `v > q` on a numeric series: NaN compares false. -/
def vGt (v : Value) (q : ℚ) : Bool :=
  match v with
  | .num x => decide (q < x)
  | _ => false

/-- Cell-pair comparison `a ≥ b`: false unless both are numbers. -/
def vGe (a b : Value) : Bool :=
  match a, b with
  | .num x, .num y => decide (y ≤ x)
  | _, _ => false

/-- Numeric value of a digit string (helper for the numeric parser). -/
def digitsVal (l : List Char) : ℕ :=
  l.foldl (fun n c => 10 * n + (c.toNat - 48)) 0

/-- Modelled from the spec: string parsing of `pandas.to_numeric`
(external library).  An unsigned decimal literal — digits, optionally
followed by a point and digits — parses to its value; anything else is
unparseable. -/
def parseUnsigned (l : List Char) : Option ℚ :=
  let ip := l.takeWhile Char.isDigit
  let rest := l.dropWhile Char.isDigit
  match rest with
  | [] => if ip.isEmpty then none else some (digitsVal ip)
  | '.' :: fp =>
      if fp.all Char.isDigit && !(ip.isEmpty && fp.isEmpty) then
        some ((digitsVal ip : ℚ) + (digitsVal fp : ℚ) / (10 : ℚ) ^ fp.length)
      else
        none
  | _ => none

/-- Modelled from the spec: `pandas.to_numeric` on a string, with an
optional leading sign. -/
def parseNum (s : String) : Option ℚ :=
  match s.toList with
  | '-' :: t => (parseUnsigned t).map (fun q => -q)
  | '+' :: t => parseUnsigned t
  | t => parseUnsigned t

/-- One cell under `pd.to_numeric(·, errors="coerce")`: numbers are kept,
null stays null, a string parses to its numeric value or is coerced to
null when unparseable. -/
def toNumeric (v : Value) : Value :=
  match v with
  | .str s =>
      match parseNum s with
      | some q => .num q
      | none => .null
  | x => x

/-- One iteration of the source's coercion loop:
`df[col] = pd.to_numeric(df[col], errors="coerce")`. -/
def coerceCol (df : DataFrame) (c : String) : DataFrame :=
  setCol df c ((getCol df c).map toNumeric)

/-- The source's coercion loop over a list of column names, mutating the
dataframe column by column. -/
def coerceCols : DataFrame → List String → DataFrame
  | df, [] => df
  | df, c :: t => coerceCols (coerceCol df c) t

/-- `required_columns` of the source, in order. -/
def required_columns : List String :=
  ["customerID", "gender", "Partner", "Dependents",
   "PhoneService", "InternetService", "Contract",
   "tenure", "MonthlyCharges", "TotalCharges"]

/-- The three columns the source coerces to numeric. -/
def numericCols : List String := ["tenure", "MonthlyCharges", "TotalCharges"]

/-- `df["gender"].isin(["Male", "Female"]).all()`. -/
def genderOk (df : DataFrame) : Bool :=
  (getCol df "gender").all (isinVal · ["Male", "Female"])

/-- `df[col].isin(["Yes", "No"]).all()` for Partner / Dependents /
PhoneService. -/
def yesNoOk (df : DataFrame) (c : String) : Bool :=
  (getCol df c).all (isinVal · ["Yes", "No"])

/-- `df["Contract"].isin(["Month-to-month", "One year", "Two year"]).all()`. -/
def contractOk (df : DataFrame) : Bool :=
  (getCol df "Contract").all (isinVal · ["Month-to-month", "One year", "Two year"])

/-- `df["InternetService"].isin(["DSL", "Fiber optic", "No"]).all()`. -/
def internetOk (df : DataFrame) : Bool :=
  (getCol df "InternetService").all (isinVal · ["DSL", "Fiber optic", "No"])

/-- `(df["tenure"] < 0).any() or (df["tenure"] > 120).any()`. -/
def tenureRangeBad (df : DataFrame) : Bool :=
  (getCol df "tenure").any (vLt · 0) || (getCol df "tenure").any (vGt · 120)

/-- `(df["MonthlyCharges"] < 0).any() or (df["MonthlyCharges"] > 200).any()`. -/
def monthlyRangeBad (df : DataFrame) : Bool :=
  (getCol df "MonthlyCharges").any (vLt · 0) || (getCol df "MonthlyCharges").any (vGt · 200)

/-- `(df["TotalCharges"] < 0).any()`. -/
def totalNegBad (df : DataFrame) : Bool :=
  (getCol df "TotalCharges").any (vLt · 0)

/-- The `failed_expectations` list the fallback accumulates once all
required columns are present: the six categorical checks on the original
dataframe, then the three range checks on the coerced dataframe, appended
in source order. -/
def fallbackChecks (df : DataFrame) : List String :=
  (if genderOk df then [] else ["gender_invalid"]) ++
  (if yesNoOk df "Partner" then [] else ["Partner_invalid"]) ++
  (if yesNoOk df "Dependents" then [] else ["Dependents_invalid"]) ++
  (if yesNoOk df "PhoneService" then [] else ["PhoneService_invalid"]) ++
  (if contractOk df then [] else ["contract_invalid"]) ++
  (if internetOk df then [] else ["internet_invalid"]) ++
  (if tenureRangeBad (coerceCols df numericCols) then ["tenure_range"] else []) ++
  (if monthlyRangeBad (coerceCols df numericCols) then ["monthly_charges_range"] else []) ++
  (if totalNegBad (coerceCols df numericCols) then ["total_charges_negative"] else [])

/-- Mode B of `validate_telco_data` (the pandas fallback), returning the
`(passed, failed_expectations)` pair of the source together with the
dataframe as it is left after the call — the numeric coercion writes into
the caller's dataframe, so the post-state is part of the embedding. -/
def validate_fallback (df : DataFrame) : (Bool × List String) × DataFrame :=
  let missing := required_columns.filter (fun c => !(columnNames df).contains c)
  if missing.isEmpty then
    let fe := fallbackChecks df
    let df2 := coerceCols df numericCols
    if fe.isEmpty then ((true, []), df2) else ((false, fe), df2)
  else
    ((false, ["missing_required_columns"]), df)

/-- A cell that is not null. -/
def notNullVal (v : Value) : Bool :=
  match v with
  | .null => false
  | _ => true

/-- Cell test of the in-set expectation: null cells are skipped by the
library, a string must belong to the set, a number never does. -/
def geInSetVal (vals : List String) (v : Value) : Bool :=
  match v with
  | .null => true
  | .str x => vals.contains x
  | .num _ => false

/-- Cell test of the two-sided between expectation: null cells are
skipped, a non-numeric cell fails. -/
def geBetweenVal (lo hi : ℚ) (v : Value) : Bool :=
  match v with
  | .null => true
  | .num q => decide (lo ≤ q ∧ q ≤ hi)
  | .str _ => false

/-- Cell test of the lower-bound-only between expectation. -/
def geMinVal (lo : ℚ) (v : Value) : Bool :=
  match v with
  | .null => true
  | .num q => decide (lo ≤ q)
  | .str _ => false

/-- Modelled from the spec: `expect_column_to_exist` of the external
expectation library succeeds when the column label is present. -/
def ge_column_exists (df : DataFrame) (c : String) : Bool :=
  (columnNames df).contains c

/-- Modelled from the spec: `expect_column_values_to_not_be_null`
succeeds on a present column with no null cell. -/
def ge_not_null (df : DataFrame) (c : String) : Bool :=
  ge_column_exists df c && (getCol df c).all notNullVal

/-- Modelled from the spec: `expect_column_values_to_be_in_set` succeeds
on a present column each of whose non-null cells is a string in the set. -/
def ge_in_set (df : DataFrame) (c : String) (vals : List String) : Bool :=
  ge_column_exists df c && (getCol df c).all (geInSetVal vals)

/-- Modelled from the spec: `expect_column_values_to_be_between` with
both bounds. -/
def ge_between (df : DataFrame) (c : String) (lo hi : ℚ) : Bool :=
  ge_column_exists df c && (getCol df c).all (geBetweenVal lo hi)

/-- Modelled from the spec: `expect_column_values_to_be_between` with
only a lower bound. -/
def ge_between_min (df : DataFrame) (c : String) (lo : ℚ) : Bool :=
  ge_column_exists df c && (getCol df c).all (geMinVal lo)

/-- The TotalCharges / MonthlyCharges cell pairs, row by row. -/
def chargePairs (df : DataFrame) : List (Value × Value) :=
  (getCol df "TotalCharges").zip (getCol df "MonthlyCharges")

/-- Number of rows satisfying `TotalCharges ≥ MonthlyCharges`. -/
def pairOkCount (df : DataFrame) : ℕ :=
  (chargePairs df).countP (fun p => vGe p.1 p.2)

/-- Number of rows entering the pair comparison. -/
def pairTotal (df : DataFrame) : ℕ := (chargePairs df).length

/-- Modelled from the spec:
`expect_column_pair_values_A_to_be_greater_than_B` with `or_equal=True`
and `mostly=0.95` succeeds when the fraction of rows with
`TotalCharges ≥ MonthlyCharges` is at least 95% (vacuously on an empty
dataframe), written integrally so the check is computable. -/
def ge_pair_mostly (df : DataFrame) : Bool :=
  decide (95 * pairTotal df ≤ 100 * pairOkCount df)

/-- The expectation suite Mode A registers, in source order, paired with
the `expectation_type` identifier each result reports. -/
def ge_checks (df : DataFrame) : List (String × Bool) :=
  [("expect_column_to_exist", ge_column_exists df "customerID"),
   ("expect_column_values_to_not_be_null", ge_not_null df "customerID"),
   ("expect_column_to_exist", ge_column_exists df "gender"),
   ("expect_column_to_exist", ge_column_exists df "Partner"),
   ("expect_column_to_exist", ge_column_exists df "Dependents"),
   ("expect_column_to_exist", ge_column_exists df "PhoneService"),
   ("expect_column_to_exist", ge_column_exists df "InternetService"),
   ("expect_column_to_exist", ge_column_exists df "Contract"),
   ("expect_column_to_exist", ge_column_exists df "tenure"),
   ("expect_column_to_exist", ge_column_exists df "MonthlyCharges"),
   ("expect_column_to_exist", ge_column_exists df "TotalCharges"),
   ("expect_column_values_to_be_in_set", ge_in_set df "gender" ["Male", "Female"]),
   ("expect_column_values_to_be_in_set", ge_in_set df "Partner" ["Yes", "No"]),
   ("expect_column_values_to_be_in_set", ge_in_set df "Dependents" ["Yes", "No"]),
   ("expect_column_values_to_be_in_set", ge_in_set df "PhoneService" ["Yes", "No"]),
   ("expect_column_values_to_be_in_set",
     ge_in_set df "Contract" ["Month-to-month", "One year", "Two year"]),
   ("expect_column_values_to_be_in_set",
     ge_in_set df "InternetService" ["DSL", "Fiber optic", "No"]),
   ("expect_column_values_to_be_between", ge_between df "tenure" 0 120),
   ("expect_column_values_to_be_between", ge_between df "MonthlyCharges" 0 200),
   ("expect_column_values_to_be_between", ge_between_min df "TotalCharges" 0),
   ("expect_column_values_to_not_be_null", ge_not_null df "tenure"),
   ("expect_column_values_to_not_be_null", ge_not_null df "MonthlyCharges"),
   ("expect_column_pair_values_A_to_be_greater_than_B", ge_pair_mostly df)]

/-- Mode A of `validate_telco_data`: run the suite, collect the
`expectation_type` of every failed result, succeed when none failed. -/
def validate_ge (df : DataFrame) : Bool × List String :=
  let failed := ((ge_checks df).filter (fun p => !p.2)).map Prod.fst
  if failed.isEmpty then (true, []) else (false, failed)

/-- `validate_telco_data`, with the process-wide `GE_AVAILABLE` flag made
an explicit argument (spec §9).  Mode A reads the dataframe only; Mode B
may write the coerced numeric columns back into it, so the returned pair
carries the dataframe after the call. -/
def validate_telco_data (geAvailable : Bool) (df : DataFrame) :
    (Bool × List String) × DataFrame :=
  if geAvailable then (validate_ge df, df) else validate_fallback df

/-! An error-aware rendering of Mode B.  The python can only raise at a
column access (`df[c]` on an absent label, a `KeyError`) or at a numeric
comparison on a column of object dtype still holding strings (a
`TypeError`); `pd.to_numeric(·, errors="coerce")` and `Series.isin`
never raise.  Each such point is modelled as an `Option`, `none`
standing for an exception escaping the function. -/

/-- Whether a cell is a string (the column would then have object dtype,
on which a numeric comparison raises). -/
def isStrVal (v : Value) : Bool :=
  match v with
  | .str _ => true
  | _ => false

/-- Column access `df[c]`: `KeyError` when the label is absent. -/
def getColE (df : DataFrame) (c : String) : Option (List Value) :=
  if (columnNames df).contains c then some (getCol df c) else none

/-- `(series < q).any()`: `TypeError` when the series still holds a
string, otherwise the comparison result with null comparing false. -/
def seriesLtE (l : List Value) (q : ℚ) : Option Bool :=
  if l.any isStrVal then none else some (l.any (vLt · q))

/-- `(series > q).any()`, with the same error behaviour. -/
def seriesGtE (l : List Value) (q : ℚ) : Option Bool :=
  if l.any isStrVal then none else some (l.any (vGt · q))

/-- The categorical stage of the error-aware Mode B: access each of the
six categorical columns and build the first six conditional entries of
the failed-check list. -/
def categoricalChecksE (df : DataFrame) : Option (List String) :=
  (getColE df "gender").bind fun (g : List Value) =>
  (getColE df "Partner").bind fun (pa : List Value) =>
  (getColE df "Dependents").bind fun (de : List Value) =>
  (getColE df "PhoneService").bind fun (ph : List Value) =>
  (getColE df "Contract").bind fun (co : List Value) =>
  (getColE df "InternetService").bind fun (ins : List Value) =>
  some (
    (if g.all (isinVal · ["Male", "Female"]) then [] else ["gender_invalid"]) ++
    (if pa.all (isinVal · ["Yes", "No"]) then [] else ["Partner_invalid"]) ++
    (if de.all (isinVal · ["Yes", "No"]) then [] else ["Dependents_invalid"]) ++
    (if ph.all (isinVal · ["Yes", "No"]) then [] else ["PhoneService_invalid"]) ++
    (if co.all (isinVal · ["Month-to-month", "One year", "Two year"]) then []
     else ["contract_invalid"]) ++
    (if ins.all (isinVal · ["DSL", "Fiber optic", "No"]) then []
     else ["internet_invalid"]))

/-- The range stage of the error-aware Mode B, run on the coerced
dataframe: each comparison may raise if its column still holds strings. -/
def rangeChecksE (df2 : DataFrame) : Option (List String) :=
  (getColE df2 "tenure").bind fun (t : List Value) =>
  (seriesLtE t 0).bind fun (tl : Bool) =>
  (seriesGtE t 120).bind fun (tg : Bool) =>
  (getColE df2 "MonthlyCharges").bind fun (m : List Value) =>
  (seriesLtE m 0).bind fun (ml : Bool) =>
  (seriesGtE m 200).bind fun (mg : Bool) =>
  (getColE df2 "TotalCharges").bind fun (tc : List Value) =>
  (seriesLtE tc 0).bind fun (tcl : Bool) =>
  some (
    (if tl || tg then ["tenure_range"] else []) ++
    (if ml || mg then ["monthly_charges_range"] else []) ++
    (if tcl then ["total_charges_negative"] else []))

/-- Mode B with every fallible step made explicit, following the source:
the missing-column guard, the categorical stage, the three column reads
of the coercion loop, then the range stage on the coerced dataframe;
`none` models an uncaught exception. -/
def validate_fallbackE (df : DataFrame) : Option ((Bool × List String) × DataFrame) :=
  if (required_columns.filter (fun c => !(columnNames df).contains c)).isEmpty then
    (categoricalChecksE df).bind fun (fe1 : List String) =>
    (getColE df "tenure").bind fun (_ : List Value) =>
    (getColE df "MonthlyCharges").bind fun (_ : List Value) =>
    (getColE df "TotalCharges").bind fun (_ : List Value) =>
    (rangeChecksE (coerceCols df numericCols)).bind fun (fe2 : List String) =>
    some (if (fe1 ++ fe2).isEmpty then ((true, []), coerceCols df numericCols)
          else ((false, fe1 ++ fe2), coerceCols df numericCols))
  else
    some ((false, ["missing_required_columns"]), df)

/-! Basic lemmas about the columnar dataframe operations. -/

theorem isEmpty_true_iff {α : Type} (l : List α) : l.isEmpty = true ↔ l = [] := by
  cases l <;> simp

theorem isEmpty_false_of_mem {α : Type} {l : List α} {a : α} (h : a ∈ l) :
    l.isEmpty = false := by
  cases l with
  | nil => cases h
  | cons x t => rfl

theorem columnNames_setCol (df : DataFrame) (c : String) (vs : List Value) :
    columnNames (setCol df c vs) = columnNames df := by
  induction df with
  | nil => rfl
  | cons h t ih =>
      obtain ⟨k, v⟩ := h
      by_cases hk : k = c <;> simp [setCol, columnNames, hk] <;>
        simpa [columnNames] using ih

theorem getCol_setCol_ne (df : DataFrame) (c c' : String) (vs : List Value)
    (h : c' ≠ c) : getCol (setCol df c vs) c' = getCol df c' := by
  induction df with
  | nil => rfl
  | cons hd t ih =>
      obtain ⟨k, v⟩ := hd
      by_cases hk : k = c
      · subst hk
        simp [setCol, getCol, Ne.symm h, ih]
      · by_cases hk' : k = c' <;> simp [setCol, getCol, h, hk, hk', ih]

theorem getCol_coerceCol_self (df : DataFrame) (c : String) :
    getCol (coerceCol df c) c = (getCol df c).map toNumeric := by
  unfold coerceCol
  induction df with
  | nil => rfl
  | cons hd t ih =>
      obtain ⟨k, v⟩ := hd
      by_cases hk : k = c
      · subst hk
        simp [setCol, getCol]
      · simp only [getCol, setCol, if_neg hk]
        exact ih

theorem getCol_coerceCol_ne (df : DataFrame) (c c' : String) (h : c' ≠ c) :
    getCol (coerceCol df c) c' = getCol df c' :=
  getCol_setCol_ne df c c' _ h

theorem columnNames_coerceCol (df : DataFrame) (c : String) :
    columnNames (coerceCol df c) = columnNames df :=
  columnNames_setCol df c _

theorem columnNames_coerceCols (l : List String) (df : DataFrame) :
    columnNames (coerceCols df l) = columnNames df := by
  induction l generalizing df with
  | nil => rfl
  | cons c t ih => simp [coerceCols, ih, columnNames_coerceCol]

theorem getCol_coerceCols_not_mem (l : List String) (df : DataFrame) (c : String)
    (h : c ∉ l) : getCol (coerceCols df l) c = getCol df c := by
  induction l generalizing df with
  | nil => rfl
  | cons a t ih =>
      simp only [List.mem_cons, not_or] at h
      simp [coerceCols, ih _ h.2, getCol_coerceCol_ne df a c h.1]

theorem getCol_coerced_tenure (df : DataFrame) :
    getCol (coerceCols df numericCols) "tenure" = (getCol df "tenure").map toNumeric := by
  simp only [numericCols, coerceCols]
  rw [getCol_coerceCol_ne _ _ _ (by decide), getCol_coerceCol_ne _ _ _ (by decide),
    getCol_coerceCol_self]

theorem getCol_coerced_monthly (df : DataFrame) :
    getCol (coerceCols df numericCols) "MonthlyCharges" =
      (getCol df "MonthlyCharges").map toNumeric := by
  simp only [numericCols, coerceCols]
  rw [getCol_coerceCol_ne _ _ _ (by decide), getCol_coerceCol_self,
    getCol_coerceCol_ne _ _ _ (by decide)]

theorem getCol_coerced_total (df : DataFrame) :
    getCol (coerceCols df numericCols) "TotalCharges" =
      (getCol df "TotalCharges").map toNumeric := by
  simp only [numericCols, coerceCols]
  rw [getCol_coerceCol_self, getCol_coerceCol_ne _ _ _ (by decide),
    getCol_coerceCol_ne _ _ _ (by decide)]

theorem toNumeric_idem (v : Value) : toNumeric (toNumeric v) = toNumeric v := by
  cases v with
  | str s => cases h : parseNum s <;> simp [toNumeric, h]
  | num q => rfl
  | null => rfl

theorem map_toNumeric_idem (l : List Value) :
    (l.map toNumeric).map toNumeric = l.map toNumeric := by
  rw [List.map_map]
  exact List.map_congr_left fun v _ => toNumeric_idem v

/-! Shape lemmas for the fallback mode. -/

theorem validate_fallback_unfold (df : DataFrame) :
    validate_fallback df =
      if (required_columns.filter (fun c => !(columnNames df).contains c)).isEmpty = true then
        (if (fallbackChecks df).isEmpty = true then ((true, []), coerceCols df numericCols)
         else ((false, fallbackChecks df), coerceCols df numericCols))
      else ((false, ["missing_required_columns"]), df) := rfl

theorem validate_fallback_missing (df : DataFrame)
    (h : (required_columns.filter (fun c => !(columnNames df).contains c)).isEmpty = false) :
    validate_fallback df = ((false, ["missing_required_columns"]), df) := by
  rw [validate_fallback_unfold, h]
  rfl

theorem validate_fallback_present (df : DataFrame)
    (h : (required_columns.filter (fun c => !(columnNames df).contains c)).isEmpty = true) :
    validate_fallback df =
      ((if (fallbackChecks df).isEmpty then (true, []) else (false, fallbackChecks df)),
        coerceCols df numericCols) := by
  rw [validate_fallback_unfold, h, if_pos rfl]
  by_cases h2 : (fallbackChecks df).isEmpty = true
  · rw [if_pos h2, if_pos h2]
  · rw [if_neg h2, if_neg h2]

theorem present_of_all_contains (df : DataFrame)
    (h : required_columns.all (fun c => (columnNames df).contains c) = true) :
    (required_columns.filter (fun c => !(columnNames df).contains c)).isEmpty = true := by
  rw [isEmpty_true_iff, List.filter_eq_nil_iff]
  rw [List.all_eq_true] at h
  intro c hc
  simpa using h c hc

/-! Membership in the fallback check list. -/

theorem mem_if_nil_else (b : Bool) (s x : String) :
    (x ∈ if b = true then ([] : List String) else [s]) ↔ (b = false ∧ x = s) := by
  cases b <;> simp

theorem mem_if_else_nil (b : Bool) (s x : String) :
    (x ∈ if b = true then [s] else ([] : List String)) ↔ (b = true ∧ x = s) := by
  cases b <;> simp

theorem gender_invalid_mem (df : DataFrame) :
    "gender_invalid" ∈ fallbackChecks df ↔ genderOk df = false := by
  simp [fallbackChecks, List.mem_append, mem_if_nil_else, mem_if_else_nil]

theorem partner_invalid_mem (df : DataFrame) :
    "Partner_invalid" ∈ fallbackChecks df ↔ yesNoOk df "Partner" = false := by
  simp [fallbackChecks, List.mem_append, mem_if_nil_else, mem_if_else_nil]

theorem dependents_invalid_mem (df : DataFrame) :
    "Dependents_invalid" ∈ fallbackChecks df ↔ yesNoOk df "Dependents" = false := by
  simp [fallbackChecks, List.mem_append, mem_if_nil_else, mem_if_else_nil]

theorem phone_invalid_mem (df : DataFrame) :
    "PhoneService_invalid" ∈ fallbackChecks df ↔ yesNoOk df "PhoneService" = false := by
  simp [fallbackChecks, List.mem_append, mem_if_nil_else, mem_if_else_nil]

theorem contract_invalid_mem (df : DataFrame) :
    "contract_invalid" ∈ fallbackChecks df ↔ contractOk df = false := by
  simp [fallbackChecks, List.mem_append, mem_if_nil_else, mem_if_else_nil]

theorem internet_invalid_mem (df : DataFrame) :
    "internet_invalid" ∈ fallbackChecks df ↔ internetOk df = false := by
  simp [fallbackChecks, List.mem_append, mem_if_nil_else, mem_if_else_nil]

theorem tenure_range_mem (df : DataFrame) :
    "tenure_range" ∈ fallbackChecks df ↔
      tenureRangeBad (coerceCols df numericCols) = true := by
  simp [fallbackChecks, List.mem_append, mem_if_nil_else, mem_if_else_nil]

theorem monthly_range_mem (df : DataFrame) :
    "monthly_charges_range" ∈ fallbackChecks df ↔
      monthlyRangeBad (coerceCols df numericCols) = true := by
  simp [fallbackChecks, List.mem_append, mem_if_nil_else, mem_if_else_nil]

theorem total_negative_mem (df : DataFrame) :
    "total_charges_negative" ∈ fallbackChecks df ↔
      totalNegBad (coerceCols df numericCols) = true := by
  simp [fallbackChecks, List.mem_append, mem_if_nil_else, mem_if_else_nil]

/-! The fallback checks are stable under the in-place numeric coercion:
the categorical columns are untouched and coercion is idempotent. -/

theorem fallbackChecks_coerced (df : DataFrame) :
    fallbackChecks (coerceCols df numericCols) = fallbackChecks df := by
  have hg : getCol (coerceCols df numericCols) "gender" = getCol df "gender" :=
    getCol_coerceCols_not_mem _ _ _ (by decide)
  have hp : getCol (coerceCols df numericCols) "Partner" = getCol df "Partner" :=
    getCol_coerceCols_not_mem _ _ _ (by decide)
  have hd : getCol (coerceCols df numericCols) "Dependents" = getCol df "Dependents" :=
    getCol_coerceCols_not_mem _ _ _ (by decide)
  have hph : getCol (coerceCols df numericCols) "PhoneService" = getCol df "PhoneService" :=
    getCol_coerceCols_not_mem _ _ _ (by decide)
  have hc : getCol (coerceCols df numericCols) "Contract" = getCol df "Contract" :=
    getCol_coerceCols_not_mem _ _ _ (by decide)
  have hi : getCol (coerceCols df numericCols) "InternetService" =
      getCol df "InternetService" :=
    getCol_coerceCols_not_mem _ _ _ (by decide)
  have ht : getCol (coerceCols (coerceCols df numericCols) numericCols) "tenure" =
      getCol (coerceCols df numericCols) "tenure" := by
    rw [getCol_coerced_tenure, getCol_coerced_tenure, map_toNumeric_idem]
  have hm : getCol (coerceCols (coerceCols df numericCols) numericCols) "MonthlyCharges" =
      getCol (coerceCols df numericCols) "MonthlyCharges" := by
    rw [getCol_coerced_monthly, getCol_coerced_monthly, map_toNumeric_idem]
  have htc : getCol (coerceCols (coerceCols df numericCols) numericCols) "TotalCharges" =
      getCol (coerceCols df numericCols) "TotalCharges" := by
    rw [getCol_coerced_total, getCol_coerced_total, map_toNumeric_idem]
  simp only [fallbackChecks, genderOk, yesNoOk, contractOk, internetOk,
    tenureRangeBad, monthlyRangeBad, totalNegBad, hg, hp, hd, hph, hc, hi, ht, hm, htc]

theorem validate_fallback_present' (df : DataFrame)
    (h : (required_columns.filter (fun c => !(columnNames df).contains c)).isEmpty = true) :
    validate_fallback df =
      if (fallbackChecks df).isEmpty then ((true, []), coerceCols df numericCols)
      else ((false, fallbackChecks df), coerceCols df numericCols) := by
  rw [validate_fallback_present df h]
  by_cases h2 : (fallbackChecks df).isEmpty = true
  · rw [if_pos h2, if_pos h2]
  · rw [if_neg h2, if_neg h2]

theorem contains_of_filter_empty (df : DataFrame)
    (h : (required_columns.filter (fun c => !(columnNames df).contains c)).isEmpty = true) :
    ∀ c ∈ required_columns, (columnNames df).contains c = true := by
  rw [isEmpty_true_iff, List.filter_eq_nil_iff] at h
  intro c hc
  have h2 := h c hc
  cases hb : (columnNames df).contains c with
  | false => exact absurd (by rw [hb]; rfl) h2
  | true => rfl

theorem coerced_no_str (l : List Value) :
    (l.map toNumeric).any isStrVal = false := by
  rw [List.any_map, List.any_eq_false]
  intro v _
  cases v with
  | str s => cases h : parseNum s <;> simp [Function.comp, toNumeric, h, isStrVal]
  | num q => simp [Function.comp, toNumeric, isStrVal]
  | null => simp [Function.comp, toNumeric, isStrVal]

/-! The tolerant pair check. -/

theorem pairOk_le_total (df : DataFrame) : pairOkCount df ≤ pairTotal df :=
  List.countP_le_length _

theorem ge_pair_mostly_iff (df : DataFrame) :
    ge_pair_mostly df = true ↔
      (pairOkCount df : ℚ) ≥ 95 / 100 * (pairTotal df : ℚ) := by
  unfold ge_pair_mostly
  rw [decide_eq_true_eq, ge_iff_le, div_mul_eq_mul_div,
    div_le_iff₀ (by norm_num : (0 : ℚ) < 100)]
  constructor
  · intro h
    have h' : ((95 * pairTotal df : ℕ) : ℚ) ≤ ((100 * pairOkCount df : ℕ) : ℚ) :=
      Nat.cast_le.mpr h
    push_cast at h'
    linarith
  · intro h
    have h' : ((95 * pairTotal df : ℕ) : ℚ) ≤ ((100 * pairOkCount df : ℕ) : ℚ) := by
      push_cast
      linarith
    exact_mod_cast h'

/-! Pointwise lemmas between the cell predicates. -/

theorem all_mono {p q : Value → Bool} (hpq : ∀ v, p v = true → q v = true)
    {l : List Value} (h : l.all p = true) : l.all q = true := by
  rw [List.all_eq_true] at h ⊢
  exact fun v hv => hpq v (h v hv)

/-- A numeric cell known to lie in `[lo, hi]`. -/
def numInRange (lo hi : ℚ) (v : Value) : Bool :=
  match v with
  | .num q => decide (lo ≤ q ∧ q ≤ hi)
  | _ => false

/-- A numeric cell known to be at least `0`. -/
def numNonneg (v : Value) : Bool :=
  match v with
  | .num q => decide (0 ≤ q)
  | _ => false

/-- A cell that cannot trip the `[lo, hi]` range check after coercion: a
number in range, an unparseable string (coerced to null), or null. -/
def looseInRange (lo hi : ℚ) (v : Value) : Bool :=
  match v with
  | .num q => decide (lo ≤ q ∧ q ≤ hi)
  | .str s => (parseNum s).isNone
  | .null => true

/-- A cell that cannot trip the negativity check after coercion. -/
def looseNonneg (v : Value) : Bool :=
  match v with
  | .num q => decide (0 ≤ q)
  | .str s => (parseNum s).isNone
  | .null => true

theorem numInRange_loose (lo hi : ℚ) (v : Value) (h : numInRange lo hi v = true) :
    looseInRange lo hi v = true := by
  cases v <;> simp_all [numInRange, looseInRange]

theorem numNonneg_loose (v : Value) (h : numNonneg v = true) :
    looseNonneg v = true := by
  cases v <;> simp_all [numNonneg, looseNonneg]

theorem coerced_lt_false_val (lo hi : ℚ) (v : Value) (h : looseInRange lo hi v = true) :
    vLt (toNumeric v) lo = false := by
  cases v with
  | num q =>
      simp only [looseInRange, decide_eq_true_eq] at h
      simp [toNumeric, vLt, not_lt.mpr h.1]
  | str s =>
      simp only [looseInRange, Option.isNone_iff_eq_none] at h
      simp [toNumeric, h, vLt]
  | null => rfl

theorem coerced_gt_false_val (lo hi : ℚ) (v : Value) (h : looseInRange lo hi v = true) :
    vGt (toNumeric v) hi = false := by
  cases v with
  | num q =>
      simp only [looseInRange, decide_eq_true_eq] at h
      simp [toNumeric, vGt, not_lt.mpr h.2]
  | str s =>
      simp only [looseInRange, Option.isNone_iff_eq_none] at h
      simp [toNumeric, h, vGt]
  | null => rfl

theorem coerced_neg_false_val (v : Value) (h : looseNonneg v = true) :
    vLt (toNumeric v) 0 = false := by
  cases v with
  | num q =>
      simp only [looseNonneg, decide_eq_true_eq] at h
      simp [toNumeric, vLt, not_lt.mpr h]
  | str s =>
      simp only [looseNonneg, Option.isNone_iff_eq_none] at h
      simp [toNumeric, h, vLt]
  | null => rfl

theorem coerced_any_lt_false (lo hi : ℚ) (l : List Value)
    (h : l.all (looseInRange lo hi) = true) :
    (l.map toNumeric).any (vLt · lo) = false := by
  rw [List.any_map, List.any_eq_false]
  rw [List.all_eq_true] at h
  intro v hv
  simp [coerced_lt_false_val lo hi v (h v hv)]

theorem coerced_any_gt_false (lo hi : ℚ) (l : List Value)
    (h : l.all (looseInRange lo hi) = true) :
    (l.map toNumeric).any (vGt · hi) = false := by
  rw [List.any_map, List.any_eq_false]
  rw [List.all_eq_true] at h
  intro v hv
  simp [coerced_gt_false_val lo hi v (h v hv)]

theorem coerced_any_neg_false (l : List Value)
    (h : l.all looseNonneg = true) :
    (l.map toNumeric).any (vLt · 0) = false := by
  rw [List.any_map, List.any_eq_false]
  rw [List.all_eq_true] at h
  intro v hv
  simp [coerced_neg_false_val v (h v hv)]

/-- The fallback passes whenever all columns are present, the categorical
checks hold, and each numeric cell either lies in its range or is coerced
to null.  Shared by the proofs about fully valid datasets and about
datasets with unparseable numeric strings. -/
theorem fallback_passes (df : DataFrame)
    (hall : required_columns.all (fun c => (columnNames df).contains c) = true)
    (hg : genderOk df = true) (hp : yesNoOk df "Partner" = true)
    (hd : yesNoOk df "Dependents" = true) (hph : yesNoOk df "PhoneService" = true)
    (hc : contractOk df = true) (hi : internetOk df = true)
    (ht : (getCol df "tenure").all (looseInRange 0 120) = true)
    (hm : (getCol df "MonthlyCharges").all (looseInRange 0 200) = true)
    (htc : (getCol df "TotalCharges").all looseNonneg = true) :
    (validate_fallback df).1 = (true, []) := by
  have htr : tenureRangeBad (coerceCols df numericCols) = false := by
    unfold tenureRangeBad
    rw [getCol_coerced_tenure, coerced_any_lt_false 0 120 _ ht,
      coerced_any_gt_false 0 120 _ ht]
    rfl
  have hmr : monthlyRangeBad (coerceCols df numericCols) = false := by
    unfold monthlyRangeBad
    rw [getCol_coerced_monthly, coerced_any_lt_false 0 200 _ hm,
      coerced_any_gt_false 0 200 _ hm]
    rfl
  have hneg : totalNegBad (coerceCols df numericCols) = false := by
    unfold totalNegBad
    rw [getCol_coerced_total, coerced_any_neg_false _ htc]
  have hfc : fallbackChecks df = [] := by
    simp [fallbackChecks, hg, hp, hd, hph, hc, hi, htr, hmr, hneg]
  rw [validate_fallback_present df (present_of_all_contains df hall), hfc]
  rfl

/-! The spec's data-model rules (§3), written from the spec's words, to
be compared with what the code computes: every required column present,
categorical values in their allowed sets, `customerID` non-null, numeric
values in range, and `TotalCharges ≥ MonthlyCharges` on at least 95% of
rows. -/

def SpecValid (df : DataFrame) : Prop :=
  required_columns.all (fun c => (columnNames df).contains c) = true ∧
  genderOk df = true ∧
  yesNoOk df "Partner" = true ∧
  yesNoOk df "Dependents" = true ∧
  yesNoOk df "PhoneService" = true ∧
  contractOk df = true ∧
  internetOk df = true ∧
  (getCol df "customerID").all notNullVal = true ∧
  (getCol df "tenure").all (numInRange 0 120) = true ∧
  (getCol df "MonthlyCharges").all (numInRange 0 200) = true ∧
  (getCol df "TotalCharges").all numNonneg = true ∧
  95 * pairTotal df ≤ 100 * pairOkCount df

instance instDecidableSpecValid (df : DataFrame) : Decidable (SpecValid df) := by
  unfold SpecValid
  infer_instance

theorem isin_imp_geInSet (vals : List String) (v : Value)
    (h : isinVal v vals = true) : geInSetVal vals v = true := by
  cases v <;> simp_all [isinVal, geInSetVal]

theorem inRange_imp_between (lo hi : ℚ) (v : Value)
    (h : numInRange lo hi v = true) : geBetweenVal lo hi v = true := by
  cases v <;> simp_all [numInRange, geBetweenVal]

theorem inRange_imp_notNull (lo hi : ℚ) (v : Value)
    (h : numInRange lo hi v = true) : notNullVal v = true := by
  cases v <;> simp_all [numInRange, notNullVal]

theorem nonneg_imp_geMin (v : Value)
    (h : numNonneg v = true) : geMinVal 0 v = true := by
  cases v <;> simp_all [numNonneg, geMinVal]

/-- Under the spec's rules every expectation of the Mode A suite
succeeds, so Mode A returns `(true, [])`. -/
theorem validate_ge_passes (df : DataFrame) (h : SpecValid df) :
    validate_ge df = (true, []) := by
  obtain ⟨hcols, hg, hp, hd, hph, hc, hi, hid, ht, hm, htc, hpair⟩ := h
  rw [List.all_eq_true] at hcols
  simp only [genderOk, yesNoOk, contractOk, internetOk] at hg hp hd hph hc hi
  have e1 : ge_column_exists df "customerID" = true := hcols _ (by decide)
  have e2 : ge_column_exists df "gender" = true := hcols _ (by decide)
  have e3 : ge_column_exists df "Partner" = true := hcols _ (by decide)
  have e4 : ge_column_exists df "Dependents" = true := hcols _ (by decide)
  have e5 : ge_column_exists df "PhoneService" = true := hcols _ (by decide)
  have e6 : ge_column_exists df "InternetService" = true := hcols _ (by decide)
  have e7 : ge_column_exists df "Contract" = true := hcols _ (by decide)
  have e8 : ge_column_exists df "tenure" = true := hcols _ (by decide)
  have e9 : ge_column_exists df "MonthlyCharges" = true := hcols _ (by decide)
  have e10 : ge_column_exists df "TotalCharges" = true := hcols _ (by decide)
  have n1 : ge_not_null df "customerID" = true := by
    unfold ge_not_null; rw [e1, hid]; rfl
  have n2 : ge_not_null df "tenure" = true := by
    unfold ge_not_null; rw [e8, all_mono (inRange_imp_notNull 0 120) ht]; rfl
  have n3 : ge_not_null df "MonthlyCharges" = true := by
    unfold ge_not_null; rw [e9, all_mono (inRange_imp_notNull 0 200) hm]; rfl
  have s1 : ge_in_set df "gender" ["Male", "Female"] = true := by
    unfold ge_in_set; rw [e2, all_mono (isin_imp_geInSet _) hg]; rfl
  have s2 : ge_in_set df "Partner" ["Yes", "No"] = true := by
    unfold ge_in_set; rw [e3, all_mono (isin_imp_geInSet _) hp]; rfl
  have s3 : ge_in_set df "Dependents" ["Yes", "No"] = true := by
    unfold ge_in_set; rw [e4, all_mono (isin_imp_geInSet _) hd]; rfl
  have s4 : ge_in_set df "PhoneService" ["Yes", "No"] = true := by
    unfold ge_in_set; rw [e5, all_mono (isin_imp_geInSet _) hph]; rfl
  have s5 : ge_in_set df "Contract" ["Month-to-month", "One year", "Two year"] = true := by
    unfold ge_in_set; rw [e7, all_mono (isin_imp_geInSet _) hc]; rfl
  have s6 : ge_in_set df "InternetService" ["DSL", "Fiber optic", "No"] = true := by
    unfold ge_in_set; rw [e6, all_mono (isin_imp_geInSet _) hi]; rfl
  have b1 : ge_between df "tenure" 0 120 = true := by
    unfold ge_between; rw [e8, all_mono (inRange_imp_between 0 120) ht]; rfl
  have b2 : ge_between df "MonthlyCharges" 0 200 = true := by
    unfold ge_between; rw [e9, all_mono (inRange_imp_between 0 200) hm]; rfl
  have b3 : ge_between_min df "TotalCharges" 0 = true := by
    unfold ge_between_min; rw [e10, all_mono nonneg_imp_geMin htc]; rfl
  have pr : ge_pair_mostly df = true := by
    unfold ge_pair_mostly
    rw [decide_eq_true_eq]
    exact hpair
  simp [validate_ge, ge_checks, e1, e2, e3, e4, e5, e6, e7, e8, e9, e10,
    n1, n2, n3, s1, s2, s3, s4, s5, s6, b1, b2, b3, pr]

/-! Concrete dataframes used as witnesses and counterexamples. -/

/-- Scenario 1 of the spec: one fully valid row. -/
def dfScenario1 : DataFrame :=
  [("customerID", [.str "1"]), ("gender", [.str "Male"]), ("Partner", [.str "Yes"]),
   ("Dependents", [.str "No"]), ("PhoneService", [.str "Yes"]),
   ("InternetService", [.str "Fiber optic"]), ("Contract", [.str "Month-to-month"]),
   ("tenure", [.num 5]), ("MonthlyCharges", [.num (Rat.mk' 1407 20)]),
   ("TotalCharges", [.num (Rat.mk' 1403 4)])]

/-- Scenario 4 of the spec: the `Contract` column is absent. -/
def dfNoContract : DataFrame :=
  [("customerID", [.str "1"]), ("gender", [.str "Male"]), ("Partner", [.str "Yes"]),
   ("Dependents", [.str "No"]), ("PhoneService", [.str "Yes"]),
   ("InternetService", [.str "Fiber optic"]),
   ("tenure", [.num 5]), ("MonthlyCharges", [.num (Rat.mk' 1407 20)]),
   ("TotalCharges", [.num (Rat.mk' 1403 4)])]

/-- A valid row except that `TotalCharges` holds an unparseable string,
which Mode B coerces to null inside the caller's dataframe. -/
def dfUnparseable : DataFrame :=
  [("customerID", [.str "1"]), ("gender", [.str "Male"]), ("Partner", [.str "Yes"]),
   ("Dependents", [.str "No"]), ("PhoneService", [.str "Yes"]),
   ("InternetService", [.str "Fiber optic"]), ("Contract", [.str "Month-to-month"]),
   ("tenure", [.num 5]), ("MonthlyCharges", [.num (Rat.mk' 1407 20)]),
   ("TotalCharges", [.str "n/a"])]

theorem getColE_some (df : DataFrame) (c : String)
    (h : (columnNames df).contains c = true) :
    getColE df c = some (getCol df c) := by
  unfold getColE
  rw [if_pos h]

theorem seriesLtE_some (l : List Value) (q : ℚ) (h : l.any isStrVal = false) :
    seriesLtE l q = some (l.any (vLt · q)) := by
  simp [seriesLtE, h]

theorem seriesGtE_some (l : List Value) (q : ℚ) (h : l.any isStrVal = false) :
    seriesGtE l q = some (l.any (vGt · q)) := by
  simp [seriesGtE, h]

theorem categoricalChecksE_some (df : DataFrame)
    (hg : (columnNames df).contains "gender" = true)
    (hpa : (columnNames df).contains "Partner" = true)
    (hde : (columnNames df).contains "Dependents" = true)
    (hph : (columnNames df).contains "PhoneService" = true)
    (hco : (columnNames df).contains "Contract" = true)
    (hins : (columnNames df).contains "InternetService" = true) :
    categoricalChecksE df = some (
      (if genderOk df then [] else ["gender_invalid"]) ++
      (if yesNoOk df "Partner" then [] else ["Partner_invalid"]) ++
      (if yesNoOk df "Dependents" then [] else ["Dependents_invalid"]) ++
      (if yesNoOk df "PhoneService" then [] else ["PhoneService_invalid"]) ++
      (if contractOk df then [] else ["contract_invalid"]) ++
      (if internetOk df then [] else ["internet_invalid"])) := by
  rw [categoricalChecksE, getColE_some df _ hg, getColE_some df _ hpa,
    getColE_some df _ hde, getColE_some df _ hph, getColE_some df _ hco,
    getColE_some df _ hins]
  simp only [Option.some_bind, genderOk, yesNoOk, contractOk, internetOk]

theorem rangeChecksE_some (df : DataFrame)
    (hte : (columnNames df).contains "tenure" = true)
    (hmc : (columnNames df).contains "MonthlyCharges" = true)
    (htc : (columnNames df).contains "TotalCharges" = true) :
    rangeChecksE (coerceCols df numericCols) = some (
      (if tenureRangeBad (coerceCols df numericCols) then ["tenure_range"] else []) ++
      (if monthlyRangeBad (coerceCols df numericCols) then ["monthly_charges_range"]
       else []) ++
      (if totalNegBad (coerceCols df numericCols) then ["total_charges_negative"]
       else [])) := by
  have hcn : columnNames (coerceCols df numericCols) = columnNames df :=
    columnNames_coerceCols _ _
  have hstr_t : (getCol (coerceCols df numericCols) "tenure").any isStrVal = false := by
    rw [getCol_coerced_tenure]; exact coerced_no_str _
  have hstr_m :
      (getCol (coerceCols df numericCols) "MonthlyCharges").any isStrVal = false := by
    rw [getCol_coerced_monthly]; exact coerced_no_str _
  have hstr_tc :
      (getCol (coerceCols df numericCols) "TotalCharges").any isStrVal = false := by
    rw [getCol_coerced_total]; exact coerced_no_str _
  rw [rangeChecksE, getColE_some _ _ (hcn ▸ hte)]
  simp only [Option.some_bind]
  rw [seriesLtE_some _ _ hstr_t]
  simp only [Option.some_bind]
  rw [seriesGtE_some _ _ hstr_t]
  simp only [Option.some_bind]
  rw [getColE_some _ _ (hcn ▸ hmc)]
  simp only [Option.some_bind]
  rw [seriesLtE_some _ _ hstr_m]
  simp only [Option.some_bind]
  rw [seriesGtE_some _ _ hstr_m]
  simp only [Option.some_bind]
  rw [getColE_some _ _ (hcn ▸ htc)]
  simp only [Option.some_bind]
  rw [seriesLtE_some _ _ hstr_tc]
  simp only [Option.some_bind, tenureRangeBad, monthlyRangeBad, totalNegBad]

/-! C6 -/

/-- C6: Mode B never raises on a row/column-shaped dataset of string,
numeric or null cells: the error-aware rendering of the source, in which
every column access and every numeric comparison may fail, always
returns the value of the total model — malformed or out-of-domain values
surface only as failed-check identifiers.  The missing-column guard
protects the column accesses, and the numeric coercion leaves no string
behind, so the comparisons cannot raise. -/
theorem mode_b_never_raises (df : DataFrame) :
    validate_fallbackE df = some (validate_telco_data false df) := by
  by_cases hm : (required_columns.filter
      (fun c => !(columnNames df).contains c)).isEmpty = true
  · have hcols := contains_of_filter_empty df hm
    have hg := hcols "gender" (by decide)
    have hpa := hcols "Partner" (by decide)
    have hde := hcols "Dependents" (by decide)
    have hph := hcols "PhoneService" (by decide)
    have hco := hcols "Contract" (by decide)
    have hins := hcols "InternetService" (by decide)
    have hte := hcols "tenure" (by decide)
    have hmc := hcols "MonthlyCharges" (by decide)
    have htcc := hcols "TotalCharges" (by decide)
    show validate_fallbackE df = some (validate_fallback df)
    rw [validate_fallback_present' df hm]
    rw [validate_fallbackE, if_pos hm,
      categoricalChecksE_some df hg hpa hde hph hco hins,
      getColE_some df _ hte, getColE_some df _ hmc, getColE_some df _ htcc,
      rangeChecksE_some df hte hmc htcc]
    simp only [Option.some_bind]
    simp [fallbackChecks, List.append_assoc]
  · have hm' : (required_columns.filter
        (fun c => !(columnNames df).contains c)).isEmpty = false := by
      simpa using hm
    show validate_fallbackE df = some (validate_fallback df)
    rw [validate_fallback_missing df hm']
    rw [validate_fallbackE, if_neg hm]

/-! C1 -/

/-- C1: for every dataset missing at least one required column, Mode B
returns `passed = false` with `failedChecks = ["missing_required_columns"]`
alone, and short-circuits: no categorical, range, or coercion step runs —
in particular the dataframe is returned exactly as passed in, untouched by
the coercion that every non-short-circuited run performs. -/
theorem mode_b_missing_columns_short_circuits (df : DataFrame)
    (h : ∃ c ∈ required_columns, (columnNames df).contains c = false) :
    validate_telco_data false df = ((false, ["missing_required_columns"]), df) := by
  obtain ⟨c, hc, hmem⟩ := h
  have hne : (required_columns.filter (fun c => !(columnNames df).contains c)).isEmpty
      = false :=
    isEmpty_false_of_mem (List.mem_filter.mpr ⟨hc, by rw [hmem]; rfl⟩)
  show validate_fallback df = _
  exact validate_fallback_missing df hne

/-- Witness for C1: Scenario 4, the dataset missing `Contract`. -/
theorem mode_b_missing_columns_short_circuits_witness :
    (∃ c ∈ required_columns, (columnNames dfNoContract).contains c = false) ∧
    validate_telco_data false dfNoContract =
      ((false, ["missing_required_columns"]), dfNoContract) :=
  ⟨by decide, mode_b_missing_columns_short_circuits dfNoContract (by decide)⟩

/-! C2 -/

/-- C2: a dataset in which every row satisfies every rule of the data
model — required columns present, categorical domains respected,
`customerID` non-null, `tenure ∈ [0,120]`, `MonthlyCharges ∈ [0,200]`,
`TotalCharges ≥ 0`, and `TotalCharges ≥ MonthlyCharges` on at least 95%
of rows — is accepted with `passed = true` and `failedChecks = []` by
both Mode A and Mode B. -/
theorem valid_dataset_passes_both_modes (df : DataFrame) (h : SpecValid df) :
    (validate_telco_data true df).1 = (true, []) ∧
    (validate_telco_data false df).1 = (true, []) := by
  constructor
  · show (validate_ge df, df).1 = _
    exact validate_ge_passes df h
  · obtain ⟨hcols, hg, hp, hd, hph, hc, hi, _, ht, hm, htc, _⟩ := h
    show (validate_fallback df).1 = _
    exact fallback_passes df hcols hg hp hd hph hc hi
      (all_mono (numInRange_loose 0 120) ht)
      (all_mono (numInRange_loose 0 200) hm)
      (all_mono numNonneg_loose htc)

/-- Witness for C2: Scenario 1's fully valid single-row dataset. -/
theorem valid_dataset_passes_both_modes_witness :
    SpecValid dfScenario1 ∧
    (validate_telco_data true dfScenario1).1 = (true, []) ∧
    (validate_telco_data false dfScenario1).1 = (true, []) :=
  ⟨by decide, valid_dataset_passes_both_modes dfScenario1 (by decide)⟩

/-! C3 -/

/-- C3 counterexample: `validate_telco_data` is not free of side effects
on its input.  On a dataset whose `TotalCharges` column holds the
unparseable string "n/a", Mode B's in-place numeric coercion overwrites
that column of the caller's dataframe, so the dataframe after the call
differs from the one passed in. -/
theorem validate_mutates_callers_dataframe :
    (validate_telco_data false dfUnparseable).2 ≠ dfUnparseable := by
  decide

/-- C3 amended: the result is computed from the input alone, and the only
write `validate_telco_data` performs into the caller's dataframe is Mode
B's in-place numeric coercion of `tenure`, `MonthlyCharges` and
`TotalCharges`; every other column is left unchanged, in either mode. -/
theorem validate_touches_only_numeric_columns (geAvailable : Bool)
    (df : DataFrame) (c : String) (h1 : c ≠ "tenure")
    (h2 : c ≠ "MonthlyCharges") (h3 : c ≠ "TotalCharges") :
    getCol (validate_telco_data geAvailable df).2 c = getCol df c := by
  cases geAvailable with
  | true => rfl
  | false =>
      show getCol (validate_fallback df).2 c = getCol df c
      by_cases hm : (required_columns.filter
          (fun c => !(columnNames df).contains c)).isEmpty = true
      · rw [validate_fallback_present df hm]
        exact getCol_coerceCols_not_mem _ _ _ (by simp [numericCols, h1, h2, h3])
      · rw [validate_fallback_missing df (Bool.not_eq_true _ ▸ hm)]

/-- Witness for C3's amended statement: the `gender` column of the
mutated dataframe is untouched. -/
theorem validate_touches_only_numeric_columns_witness :
    ("gender" ≠ "tenure" ∧ "gender" ≠ "MonthlyCharges" ∧
      "gender" ≠ "TotalCharges") ∧
    getCol (validate_telco_data false dfUnparseable).2 "gender" =
      getCol dfUnparseable "gender" :=
  ⟨by decide, validate_touches_only_numeric_columns false dfUnparseable "gender"
    (by decide) (by decide) (by decide)⟩

/-! C4 -/

/-- Twenty otherwise-valid rows of which the last `bad` have
`TotalCharges = 10 < MonthlyCharges = 70`, violating the cross-column
consistency rule. -/
def dfMostly (bad : ℕ) : DataFrame :=
  [("customerID", List.replicate 20 (.str "c")),
   ("gender", List.replicate 20 (.str "Male")),
   ("Partner", List.replicate 20 (.str "Yes")),
   ("Dependents", List.replicate 20 (.str "No")),
   ("PhoneService", List.replicate 20 (.str "Yes")),
   ("InternetService", List.replicate 20 (.str "DSL")),
   ("Contract", List.replicate 20 (.str "One year")),
   ("tenure", List.replicate 20 (.num 5)),
   ("MonthlyCharges", List.replicate 20 (.num 70)),
   ("TotalCharges",
     List.replicate (20 - bad) (.num 100) ++ List.replicate bad (.num 10))]

set_option maxHeartbeats 4000000 in
/-- C4: the Mode A cross-column consistency check passes exactly when the
fraction of rows with `TotalCharges ≥ MonthlyCharges` is at least 0.95;
at a 1-in-20 violation ratio it still passes (and the whole suite
passes), while at 2-in-20 its identifier appears among the failed checks
and validation fails. -/
theorem consistency_threshold_95_percent :
    (∀ df : DataFrame, ge_pair_mostly df = true ↔
      (pairOkCount df : ℚ) ≥ 95 / 100 * (pairTotal df : ℚ)) ∧
    "expect_column_pair_values_A_to_be_greater_than_B" ∉ (validate_ge (dfMostly 1)).2 ∧
    (validate_ge (dfMostly 1)).1 = true ∧
    "expect_column_pair_values_A_to_be_greater_than_B" ∈ (validate_ge (dfMostly 2)).2 ∧
    (validate_ge (dfMostly 2)).1 = false :=
  ⟨ge_pair_mostly_iff, by decide, by decide, by decide, by decide⟩

/-! C5 -/

/-- C5: running the validator twice on the same dataframe object yields
the same ValidationResult both times, although Mode B's first run may
have coerced the shared dataframe's numeric columns in place — the
categorical columns are untouched by coercion and coercion is
idempotent, so every check decides alike on the mutated dataframe. -/
theorem validate_idempotent (geAvailable : Bool) (df : DataFrame) :
    (validate_telco_data geAvailable (validate_telco_data geAvailable df).2).1 =
      (validate_telco_data geAvailable df).1 := by
  cases geAvailable with
  | true => rfl
  | false =>
      show (validate_fallback (validate_fallback df).2).1 = (validate_fallback df).1
      by_cases hm : (required_columns.filter
          (fun c => !(columnNames df).contains c)).isEmpty = true
      · have hm2 : (required_columns.filter (fun c =>
            !(columnNames (coerceCols df numericCols)).contains c)).isEmpty = true := by
          rw [columnNames_coerceCols]; exact hm
        rw [validate_fallback_present df hm]
        dsimp only
        rw [validate_fallback_present _ hm2]
        dsimp only
        rw [fallbackChecks_coerced]
      · have hm' : (required_columns.filter
            (fun c => !(columnNames df).contains c)).isEmpty = false := by
          simpa using hm
        rw [validate_fallback_missing df hm']
        dsimp only
        rw [validate_fallback_missing df hm']

/-! Projections of the fallback result once all columns are present. -/

theorem fallback_failed_list (df : DataFrame)
    (h : (required_columns.filter (fun c => !(columnNames df).contains c)).isEmpty = true) :
    (validate_fallback df).1.2 = fallbackChecks df := by
  rw [validate_fallback_present df h]
  dsimp only
  by_cases h2 : (fallbackChecks df).isEmpty = true
  · rw [if_pos h2]
    exact ((isEmpty_true_iff _).mp h2).symm
  · rw [if_neg h2]

theorem fallback_fst (df : DataFrame)
    (h : (required_columns.filter (fun c => !(columnNames df).contains c)).isEmpty = true) :
    (validate_fallback df).1.1 = (fallbackChecks df).isEmpty := by
  rw [validate_fallback_present df h]
  dsimp only
  by_cases h2 : (fallbackChecks df).isEmpty = true
  · rw [if_pos h2, h2]
  · have h3 : (fallbackChecks df).isEmpty = false := by simpa using h2
    rw [if_neg h2, h3]

theorem validate_ge_unfold (df : DataFrame) :
    validate_ge df =
      if (((ge_checks df).filter (fun p => !p.2)).map Prod.fst).isEmpty
      then (true, []) else (false, ((ge_checks df).filter (fun p => !p.2)).map Prod.fst) :=
  rfl

/-! Further concrete dataframes for the remaining claims. -/

/-- One row violating several independent rules at once: `gender` and
`Contract` outside their sets and `tenure` out of range. -/
def dfMulti : DataFrame :=
  [("customerID", [.str "1"]), ("gender", [.str "Other"]), ("Partner", [.str "Yes"]),
   ("Dependents", [.str "No"]), ("PhoneService", [.str "Yes"]),
   ("InternetService", [.str "Fiber optic"]), ("Contract", [.str "Weekly"]),
   ("tenure", [.num 150]), ("MonthlyCharges", [.num (Rat.mk' 1407 20)]),
   ("TotalCharges", [.num (Rat.mk' 1403 4)])]

/-- Scenario 2 of the spec: Scenario 1's row with `gender = "Other"`. -/
def dfGenderBad : DataFrame :=
  [("customerID", [.str "1"]), ("gender", [.str "Other"]), ("Partner", [.str "Yes"]),
   ("Dependents", [.str "No"]), ("PhoneService", [.str "Yes"]),
   ("InternetService", [.str "Fiber optic"]), ("Contract", [.str "Month-to-month"]),
   ("tenure", [.num 5]), ("MonthlyCharges", [.num (Rat.mk' 1407 20)]),
   ("TotalCharges", [.num (Rat.mk' 1403 4)])]

/-- Two otherwise fully valid rows, the first of which carries an
unparseable `TotalCharges` string. -/
def dfLoose : DataFrame :=
  [("customerID", [.str "1", .str "2"]), ("gender", [.str "Male", .str "Female"]),
   ("Partner", [.str "Yes", .str "No"]), ("Dependents", [.str "No", .str "No"]),
   ("PhoneService", [.str "Yes", .str "Yes"]),
   ("InternetService", [.str "DSL", .str "No"]),
   ("Contract", [.str "One year", .str "Two year"]),
   ("tenure", [.num 5, .num 10]), ("MonthlyCharges", [.num 70, .num 80]),
   ("TotalCharges", [.str "error", .num 100])]

/-! C7 -/

/-- C7: in Mode B, once all required columns are present no check
short-circuits another: each of the nine identifiers appears in
`failedChecks` exactly when its own rule is violated, whatever the other
checks did (the range checks reading the coerced numeric columns). -/
theorem mode_b_checks_run_independently (df : DataFrame)
    (h : required_columns.all (fun c => (columnNames df).contains c) = true) :
    (("gender_invalid" ∈ (validate_telco_data false df).1.2) ↔ genderOk df = false) ∧
    (("Partner_invalid" ∈ (validate_telco_data false df).1.2) ↔
      yesNoOk df "Partner" = false) ∧
    (("Dependents_invalid" ∈ (validate_telco_data false df).1.2) ↔
      yesNoOk df "Dependents" = false) ∧
    (("PhoneService_invalid" ∈ (validate_telco_data false df).1.2) ↔
      yesNoOk df "PhoneService" = false) ∧
    (("contract_invalid" ∈ (validate_telco_data false df).1.2) ↔
      contractOk df = false) ∧
    (("internet_invalid" ∈ (validate_telco_data false df).1.2) ↔
      internetOk df = false) ∧
    (("tenure_range" ∈ (validate_telco_data false df).1.2) ↔
      tenureRangeBad (coerceCols df numericCols) = true) ∧
    (("monthly_charges_range" ∈ (validate_telco_data false df).1.2) ↔
      monthlyRangeBad (coerceCols df numericCols) = true) ∧
    (("total_charges_negative" ∈ (validate_telco_data false df).1.2) ↔
      totalNegBad (coerceCols df numericCols) = true) := by
  have hvt : validate_telco_data false df = validate_fallback df := rfl
  rw [hvt, fallback_failed_list df (present_of_all_contains df h)]
  exact ⟨gender_invalid_mem df, partner_invalid_mem df, dependents_invalid_mem df,
    phone_invalid_mem df, contract_invalid_mem df, internet_invalid_mem df,
    tenure_range_mem df, monthly_range_mem df, total_negative_mem df⟩

/-- Witness for C7: a row violating the gender, contract and tenure rules
at once; each of the nine characterizations holds on it. -/
theorem mode_b_checks_run_independently_witness :
    (required_columns.all (fun c => (columnNames dfMulti).contains c) = true) ∧
    ((("gender_invalid" ∈ (validate_telco_data false dfMulti).1.2) ↔
        genderOk dfMulti = false) ∧
    (("Partner_invalid" ∈ (validate_telco_data false dfMulti).1.2) ↔
      yesNoOk dfMulti "Partner" = false) ∧
    (("Dependents_invalid" ∈ (validate_telco_data false dfMulti).1.2) ↔
      yesNoOk dfMulti "Dependents" = false) ∧
    (("PhoneService_invalid" ∈ (validate_telco_data false dfMulti).1.2) ↔
      yesNoOk dfMulti "PhoneService" = false) ∧
    (("contract_invalid" ∈ (validate_telco_data false dfMulti).1.2) ↔
      contractOk dfMulti = false) ∧
    (("internet_invalid" ∈ (validate_telco_data false dfMulti).1.2) ↔
      internetOk dfMulti = false) ∧
    (("tenure_range" ∈ (validate_telco_data false dfMulti).1.2) ↔
      tenureRangeBad (coerceCols dfMulti numericCols) = true) ∧
    (("monthly_charges_range" ∈ (validate_telco_data false dfMulti).1.2) ↔
      monthlyRangeBad (coerceCols dfMulti numericCols) = true) ∧
    (("total_charges_negative" ∈ (validate_telco_data false dfMulti).1.2) ↔
      totalNegBad (coerceCols dfMulti numericCols) = true)) :=
  ⟨by decide, mode_b_checks_run_independently dfMulti (by decide)⟩

/-! C8 -/

/-- C8: with all required columns present, a `gender` value outside
the set Male / Female makes Mode B report `gender_invalid` among the
failed checks and fail the validation. -/
theorem mode_b_flags_invalid_gender (df : DataFrame)
    (hcols : required_columns.all (fun c => (columnNames df).contains c) = true)
    (hg : genderOk df = false) :
    "gender_invalid" ∈ (validate_telco_data false df).1.2 ∧
    (validate_telco_data false df).1.1 = false := by
  have hp := present_of_all_contains df hcols
  have hvt : validate_telco_data false df = validate_fallback df := rfl
  rw [hvt, fallback_failed_list df hp, fallback_fst df hp]
  refine ⟨(gender_invalid_mem df).mpr hg, ?_⟩
  exact isEmpty_false_of_mem ((gender_invalid_mem df).mpr hg)

/-- Witness for C8: Scenario 2, the valid row with `gender = "Other"`. -/
theorem mode_b_flags_invalid_gender_witness :
    (required_columns.all (fun c => (columnNames dfGenderBad).contains c) = true) ∧
    genderOk dfGenderBad = false ∧
    ("gender_invalid" ∈ (validate_telco_data false dfGenderBad).1.2 ∧
      (validate_telco_data false dfGenderBad).1.1 = false) :=
  ⟨by decide, by decide, mode_b_flags_invalid_gender dfGenderBad (by decide) (by decide)⟩

/-! C9 -/

/-- C9: every result of `validate_telco_data`, in either mode, satisfies
the ValidationResult invariant: `failedChecks` is empty exactly when
`passed` is true. -/
theorem failedChecks_empty_iff_passed (geAvailable : Bool) (df : DataFrame) :
    (validate_telco_data geAvailable df).1.2 = [] ↔
      (validate_telco_data geAvailable df).1.1 = true := by
  cases geAvailable with
  | true =>
      show (validate_ge df).2 = [] ↔ (validate_ge df).1 = true
      rw [validate_ge_unfold]
      by_cases hf : (((ge_checks df).filter (fun p => !p.2)).map Prod.fst).isEmpty = true
      · rw [if_pos hf]
        simp
      · rw [if_neg hf]
        have hne : ((ge_checks df).filter (fun p => !p.2)).map Prod.fst ≠ [] := by
          intro h0
          exact hf (by rw [h0]; rfl)
        exact iff_of_false hne Bool.false_ne_true
  | false =>
      show (validate_fallback df).1.2 = [] ↔ (validate_fallback df).1.1 = true
      by_cases hm : (required_columns.filter
          (fun c => !(columnNames df).contains c)).isEmpty = true
      · rw [fallback_failed_list df hm, fallback_fst df hm]
        exact (isEmpty_true_iff _).symm
      · have hm' : (required_columns.filter
            (fun c => !(columnNames df).contains c)).isEmpty = false := by
          simpa using hm
        rw [validate_fallback_missing df hm']
        exact iff_of_false (List.cons_ne_nil _ _) Bool.false_ne_true

/-! C10 -/

/-- C10: in Mode B an unparseable value of a numeric column is coerced to
null, and null trips none of the range checks — so a dataset that is
otherwise fully valid but holds unparseable numeric strings (or nulls)
still passes with an empty failed-check list. -/
theorem unparseable_numeric_coerced_to_null_passes (df : DataFrame)
    (hcols : required_columns.all (fun c => (columnNames df).contains c) = true)
    (hg : genderOk df = true) (hp : yesNoOk df "Partner" = true)
    (hd : yesNoOk df "Dependents" = true) (hph : yesNoOk df "PhoneService" = true)
    (hc : contractOk df = true) (hi : internetOk df = true)
    (ht : (getCol df "tenure").all (looseInRange 0 120) = true)
    (hm : (getCol df "MonthlyCharges").all (looseInRange 0 200) = true)
    (htc : (getCol df "TotalCharges").all looseNonneg = true) :
    (∀ s : String, parseNum s = none → toNumeric (Value.str s) = Value.null) ∧
    (validate_telco_data false df).1 = (true, []) := by
  refine ⟨fun s hs => by simp [toNumeric, hs], ?_⟩
  show (validate_fallback df).1 = (true, [])
  exact fallback_passes df hcols hg hp hd hph hc hi ht hm htc

/-- Witness for C10: two valid rows, one with `TotalCharges = "error"`,
still pass Mode B with no failed check. -/
theorem unparseable_numeric_coerced_to_null_passes_witness :
    (required_columns.all (fun c => (columnNames dfLoose).contains c) = true) ∧
    genderOk dfLoose = true ∧ yesNoOk dfLoose "Partner" = true ∧
    yesNoOk dfLoose "Dependents" = true ∧ yesNoOk dfLoose "PhoneService" = true ∧
    contractOk dfLoose = true ∧ internetOk dfLoose = true ∧
    (getCol dfLoose "tenure").all (looseInRange 0 120) = true ∧
    (getCol dfLoose "MonthlyCharges").all (looseInRange 0 200) = true ∧
    (getCol dfLoose "TotalCharges").all looseNonneg = true ∧
    ((∀ s : String, parseNum s = none → toNumeric (Value.str s) = Value.null) ∧
      (validate_telco_data false dfLoose).1 = (true, [])) :=
  ⟨by decide, by decide, by decide, by decide, by decide, by decide, by decide,
    by decide, by decide, by decide,
    unparseable_numeric_coerced_to_null_passes dfLoose (by decide) (by decide)
      (by decide) (by decide) (by decide) (by decide) (by decide) (by decide)
      (by decide) (by decide)⟩

end Telco
